/-
A shallow embedding of the zino response construction and encoding engine
(`zino-core/src/response/mod.rs`) together with proofs of its specified
properties.

Modelling conventions:
- `SharedString` is `String`; `Instant` and `Duration` are `Nat`
  (`Duration` counts milliseconds); `Uuid` is a `Nat` holding the 128-bit
  value, with `0` as the nil UUID; `Error` is the error's display text.
- Byte buffers (`Vec<u8>`) are modelled as `String`.
- A `Box<RawValue>` (a pre-serialized, guaranteed-valid JSON text) is
  modelled by the `JsonValue` its text parses to.
- Ambient effects become explicit arguments: `Instant::now()` becomes a
  `now : Instant` argument, and the randomly generated fresh trace context
  of `TraceContext::new()` becomes a `fresh : TraceContext` argument.
- The generic status parameter `S : ResponseCode` (a trait) is modelled by
  passing a `ResponseCode` record of the trait-method results.
-/
import Mathlib

set_option autoImplicit false

namespace Zino

/-- `SharedString` from zino-core, modelled as `String`. -/
abbrev SharedString := String

/-- `std::time::Instant`, modelled as an abstract tick count. -/
abbrev Instant := Nat

/-- `std::time::Duration`, modelled as a number of milliseconds. -/
abbrev Duration := Nat

/-- `uuid::Uuid`, modelled by its 128-bit value as a `Nat`. -/
abbrev Uuid := Nat

/-- The error type: an error value is modelled by its display text. -/
abbrev Error := String

/-- `Uuid::nil()`. -/
def Uuid.nil : Uuid := 0

/-- `Uuid::is_nil`. -/
def Uuid.is_nil (u : Uuid) : Bool := u == 0

/-- `Uuid::from_u128`. -/
def Uuid.from_u128 (n : Nat) : Uuid := n

/-- Hex digits of a natural number, lowercase, no padding. -/
def hexStr (n : Nat) : String := String.mk (Nat.toDigits 16 n)

/-- Hex digits of a natural number, left-padded with zeros to `width`. -/
def hexPad (width n : Nat) : String :=
  let s := hexStr n
  String.mk (List.replicate (width - s.length) '0') ++ s

/-- The hyphenated textual form of a UUID (8-4-4-4-12 hex digits). -/
def uuidToString (u : Uuid) : String :=
  let cs := (hexPad 32 (u % 2 ^ 128)).data
  String.mk (cs.take 8) ++ "-" ++ String.mk ((cs.drop 8).take 4) ++ "-"
    ++ String.mk ((cs.drop 12).take 4) ++ "-" ++ String.mk ((cs.drop 16).take 4)
    ++ "-" ++ String.mk (cs.drop 20)

/-- `serde_json::Value`, the structured JSON data model. -/
inductive JsonValue where
  | null : JsonValue
  | bool : Bool → JsonValue
  | num : Int → JsonValue
  | str : String → JsonValue
  | arr : List JsonValue → JsonValue
  | obj : List (String × JsonValue) → JsonValue
deriving Repr

/-- `JsonValue::is_null`. -/
def JsonValue.is_null : JsonValue → Bool
  | .null => true
  | _ => false

/-- JSON string escaping for one character, as `serde_json` renders it. -/
def escapeJsonChar (c : Char) : String :=
  if c = '"' then "\\\""
  else if c = '\\' then "\\\\"
  else if c = '\n' then "\\n"
  else if c = '\r' then "\\r"
  else if c = '\t' then "\\t"
  else if c.toNat < 32 then "\\u00" ++ hexPad 2 c.toNat
  else String.singleton c

/-- JSON string escaping, as `serde_json` renders it. -/
def escapeJson (s : String) : String :=
  s.data.foldl (fun acc c => acc ++ escapeJsonChar c) ""

mutual

/-- The compact JSON text of a value, as `serde_json::to_string` renders it. -/
def jsonText : JsonValue → String
  | .null => "null"
  | .bool b => cond b "true" "false"
  | .num n => toString n
  | .str s => "\"" ++ escapeJson s ++ "\""
  | .arr vs => "[" ++ jsonTextElems vs ++ "]"
  | .obj ms => "\x7b" ++ jsonTextMembers ms ++ "\x7d"

/-- Comma-joined JSON texts of array elements. -/
def jsonTextElems : List JsonValue → String
  | [] => ""
  | [v] => jsonText v
  | v :: vs => jsonText v ++ "," ++ jsonTextElems vs

/-- Comma-joined JSON texts of object members. -/
def jsonTextMembers : List (String × JsonValue) → String
  | [] => ""
  | [(k, v)] => "\"" ++ escapeJson k ++ "\":" ++ jsonText v
  | (k, v) :: ms => "\"" ++ escapeJson k ++ "\":" ++ jsonText v ++ "," ++ jsonTextMembers ms

end

/-- Modelled from the spec (the `TraceContext` type lives in
`zino-core/src/trace`, outside `src/`): "trace id (128-bit), span id (64-bit),
parent span id, trace flags, and an ordered vendor-state list of
(vendor-key, value) pairs". -/
structure TraceContext where
  trace_id : Nat
  span_id : Nat
  parent_id : Option Nat
  trace_flags : Nat
  trace_state : List (String × String)
deriving Repr, DecidableEq

/-- Modelled from the spec: "`traceparent` =
version-traceid-spanid-flags", rendered as
"`{version}-{32 hex trace-id}-{16 hex span-id}-{2 hex flags}`". -/
def TraceContext.traceparent (tc : TraceContext) : String :=
  "00-" ++ hexPad 32 (tc.trace_id % 2 ^ 128) ++ "-" ++ hexPad 16 (tc.span_id % 2 ^ 64)
    ++ "-" ++ hexPad 2 (tc.trace_flags % 2 ^ 8)

/-- Modelled from the spec: "`tracestate` = comma-joined vendor entries",
each a "`key=value`" pair. -/
def TraceContext.tracestate (tc : TraceContext) : String :=
  String.intercalate "," (tc.trace_state.map (fun kv => kv.1 ++ "=" ++ kv.2))

/-- Modelled from the spec (the `TimingMetric` type lives in
`zino-core/src/trace`, outside `src/`): "name, optional description,
optional duration". -/
structure TimingMetric where
  name : SharedString
  description : Option SharedString
  duration : Option Duration
deriving Repr, DecidableEq

/-- Modelled from the spec: one `Server-Timing` entry is rendered as
"`name;dur={ms};desc=\"{description}\"` ..., omitting `dur`/`desc` when
absent". -/
def TimingMetric.render (metric : TimingMetric) : String :=
  metric.name
    ++ (match metric.duration with
        | some ms => ";dur=" ++ toString ms
        | none => "")
    ++ (match metric.description with
        | some desc => ";desc=\"" ++ desc ++ "\""
        | none => "")

/-- Modelled from the spec: `ServerTiming` "is an ordered list of such
entries", and its header value is the "comma-joined" rendering of them. -/
def serverTimingRender (server_timing : List TimingMetric) : String :=
  String.intercalate ", " (server_timing.map TimingMetric.render)

/-- The `ResponseCode` capability (trait). A status-code value is modelled
by the record of its trait-method results: `is_success()`, `status_code()`,
`type_uri()`, `title()`, `error_code()`, `message()`. -/
structure ResponseCode where
  is_success : Bool
  status_code : Nat
  type_uri : Option SharedString
  title : Option SharedString
  error_code : Option SharedString
  message : Option SharedString
deriving Repr, DecidableEq

/-- Modelled from the spec: the well-known constant `OK` (status 200,
successful, with a default success message). -/
def ResponseCode.OK : ResponseCode :=
  { is_success := true
    status_code := 200
    type_uri := none
    title := none
    error_code := none
    message := some "OK" }

/-- Modelled from the spec: the well-known constant `INTERNAL_SERVER_ERROR`
(status 500, non-successful). -/
def ResponseCode.INTERNAL_SERVER_ERROR : ResponseCode :=
  { is_success := false
    status_code := 500
    type_uri := none
    title := some "Internal Server Error"
    error_code := none
    message := none }

/-- Modelled from the spec: the `BAD_REQUEST` constant used by the
validation conversion (status 400, non-successful). -/
def ResponseCode.BAD_REQUEST : ResponseCode :=
  { is_success := false
    status_code := 400
    type_uri := none
    title := some "Bad Request"
    error_code := none
    message := none }

/-- The `RequestContext` capability (trait): "supplies start time, request
identifier, instance URI, and a constructor for a new trace context".
`trace_context` is the result of `ctx.new_trace_context()`; the field
`instance` of the source is named `instance_uri` here (`instance` is a
Lean keyword). -/
structure RequestContext where
  instance_uri : String
  start_time : Instant
  request_id : Uuid
  trace_context : TraceContext
deriving Repr, DecidableEq

/-- Modelled from the spec (the `Validation` type lives in
`zino-core/src/request`, outside `src/`): a "form/validation result
structure (already a finished key-value mapping to be embedded as
payload)", holding the field-error entries. -/
structure Validation where
  failed_entries : List (String × JsonValue)

/-- `Validation::is_success`: no field errors were recorded. -/
def Validation.is_success (validation : Validation) : Bool :=
  validation.failed_entries.isEmpty

/-- `Validation::into_map`: the finished field-error key-value mapping. -/
def Validation.into_map (validation : Validation) : List (String × JsonValue) :=
  validation.failed_entries

/-- `serde_json::value::to_raw_value` applied to a string-keyed map of JSON
values (as in `set_validation_data`): serializing such a map cannot fail,
so the outcome is always `Ok` of the corresponding JSON object. -/
def to_raw_value_map (map : List (String × JsonValue)) : Except Error JsonValue :=
  .ok (.obj map)

/-- Modelled from the spec (the `JsonValueExt` codec extension lives in
`zino-core/src/extension`, outside `src/`): "JSON Lines encode (one record
per line)" — each element of an array on its own line, a single value as
one line. -/
def JsonValue.to_jsonlines (value : JsonValue) : Except Error String :=
  match value with
  | .arr vs => .ok (String.intercalate "\n" (vs.map jsonText))
  | v => .ok (jsonText v)

/-- Modelled from the spec (codec outside `src/`): "CSV encode" — an array
of objects becomes newline-joined rows of comma-joined member texts, any
other value one row of its text. -/
def JsonValue.to_csv (value : JsonValue) : Except Error String :=
  match value with
  | .arr vs =>
    .ok (String.intercalate "\n" (vs.map (fun row =>
      match row with
      | .obj ms => String.intercalate "," (ms.map (fun kv => jsonText kv.2))
      | v => jsonText v)))
  | .obj ms => .ok (String.intercalate "," (ms.map (fun kv => jsonText kv.2)))
  | v => .ok (jsonText v)

/-- Modelled from the spec (codec outside `src/`): "MessagePack encode" —
a "compact binary serialization format interoperable with JSON"; the
binary image is represented abstractly by a tagged rendering of the value,
since no claim depends on the MessagePack wire format. -/
def JsonValue.to_msgpack (value : JsonValue) : Except Error String :=
  .ok ("msgpack(" ++ jsonText value ++ ")")

/-- Modelled from the spec (the `serde_qs` form codec is an external
crate): form-urlencoded rendering — object members become `&`-joined
`key=value` pairs, any other value its text. -/
def JsonValue.to_form_urlencoded (value : JsonValue) : Except Error String :=
  match value with
  | .obj ms => .ok (String.intercalate "&" (ms.map (fun kv => kv.1 ++ "=" ++ jsonText kv.2)))
  | v => .ok (jsonText v)

/-- `str::starts_with`, computed on the character lists. -/
def strStartsWith (s pre : String) : Bool :=
  pre.data.isPrefixOf s.data

/-- `str::ends_with`, computed on the character lists. -/
def strEndsWith (s suf : String) : Bool :=
  suf.data.reverse.isPrefixOf s.data.reverse

/-- Modelled from the spec (the helper `check_json_content_type` lives in
`zino-core/src/helper`, outside `src/`): whether "the content type is a
JSON media type (including `problem+json`)"; the media-type essence before
any `;` parameter is examined. -/
def check_json_content_type (content_type : String) : Bool :=
  let essence := String.mk (content_type.data.takeWhile (fun c => c != ';'))
  essence == "application/json"
    || (strStartsWith essence "application/" && strEndsWith essence "+json")

/-- `Response<S>` from `zino-core/src/response/mod.rs`. The source field
`instance` is named `instance_uri` here (`instance` is a Lean keyword);
`data` holds the JSON value a stored `Box<RawValue>` parses to; the
`phantom` marker of the generic status parameter is dropped. -/
structure Response where
  type_uri : Option SharedString
  title : Option SharedString
  status_code : Nat
  error_code : Option SharedString
  detail : Option SharedString
  instance_uri : Option SharedString
  success : Bool
  message : Option SharedString
  start_time : Instant
  request_id : Uuid
  data : Option JsonValue
  json_data : JsonValue
  data_transformer : Option (JsonValue → Except Error String)
  content_type : Option SharedString
  trace_context : Option TraceContext
  server_timing : List TimingMetric
  headers : List (String × String)

/-- `Response::new(code)`; `Instant::now()` is the explicit `now`. -/
def Response.new (code : ResponseCode) (now : Instant) : Response :=
  let success := code.is_success
  let message := code.message
  let res : Response :=
    { type_uri := code.type_uri
      title := code.title
      status_code := code.status_code
      error_code := code.error_code
      detail := none
      instance_uri := none
      success := success
      message := none
      start_time := now
      request_id := Uuid.nil
      data := none
      json_data := .null
      data_transformer := none
      content_type := none
      trace_context := none
      server_timing := []
      headers := [] }
  if success then { res with message := message } else { res with detail := message }

/-- `Response::with_context(code, ctx)`. -/
def Response.with_context (code : ResponseCode) (ctx : RequestContext) : Response :=
  let success := code.is_success
  let message := code.message
  let res : Response :=
    { type_uri := code.type_uri
      title := code.title
      status_code := code.status_code
      error_code := code.error_code
      detail := none
      instance_uri := if success then none else some ctx.instance_uri
      success := success
      message := none
      start_time := ctx.start_time
      request_id := ctx.request_id
      data := none
      json_data := .null
      data_transformer := none
      content_type := none
      trace_context := none
      server_timing := []
      headers := [] }
  let res := if success then { res with message := message } else { res with detail := message }
  { res with trace_context := some ctx.trace_context }

/-- `Response::is_success`. -/
def Response.is_success (self : Response) : Bool :=
  self.success

/-- `Response::set_code(code)`. -/
def Response.set_code (self : Response) (code : ResponseCode) : Response :=
  let success := code.is_success
  let message := code.message
  let self :=
    { self with
      type_uri := code.type_uri
      title := code.title
      status_code := code.status_code
      error_code := code.error_code
      success := success }
  if success then
    { self with detail := none, message := message }
  else
    { self with detail := message, message := none }

/-- `Response::set_instance`. -/
def Response.set_instance (self : Response) (inst : SharedString) : Response :=
  { self with instance_uri := some inst }

/-- `Response::set_message(message)`. -/
def Response.set_message (self : Response) (message : SharedString) : Response :=
  if self.is_success then
    { self with detail := none, message := some message }
  else
    { self with detail := some message, message := none }

/-- `Response::set_error_message(error)`: the error value is stringified
(`Error` is already its display text here). -/
def Response.set_error_message (self : Response) (error : Error) : Response :=
  let message := error
  if self.is_success then
    { self with detail := none, message := some message }
  else
    { self with detail := some message, message := none }

/-- `Response::set_data(data)`. The serde serialization of the generic
`T : Serialize` argument is modelled by its outcome
`serialized : Except Error JsonValue` (the `Ok` payload being the value
the produced `RawValue` text parses to). -/
def Response.set_data (self : Response) (serialized : Except Error JsonValue) : Response :=
  match serialized with
  | .ok raw_value => { self with data := some raw_value, json_data := .null }
  | .error err => self.set_error_message err

/-- `Response::set_json_data(data)`. -/
def Response.set_json_data (self : Response) (data : JsonValue) : Response :=
  { self with data := none, json_data := data }

/-- `Response::set_validation_data(validation)`. -/
def Response.set_validation_data (self : Response) (validation : Validation) : Response :=
  match to_raw_value_map validation.into_map with
  | .ok raw_value => { self with data := some raw_value, json_data := .null }
  | .error err => self.set_error_message err

/-- `Response::set_data_transformer(transformer)`. -/
def Response.set_data_transformer (self : Response)
    (transformer : JsonValue → Except Error String) : Response :=
  { self with data_transformer := some transformer }

/-- `Response::set_content_type(content_type)`. -/
def Response.set_content_type (self : Response) (content_type : SharedString) : Response :=
  { self with content_type := some content_type }

/-- `Response::set_form_response(data)`. -/
def Response.set_form_response (self : Response) (data : JsonValue) : Response :=
  let self := { self with data := none, json_data := data }
  let self := self.set_content_type "application/x-www-form-urlencoded"
  self.set_data_transformer (fun data => data.to_form_urlencoded)

/-- `Response::set_json_response(data)`; the installed transformer is
`serde_json::to_vec`, i.e. the compact JSON text. -/
def Response.set_json_response (self : Response) (data : JsonValue) : Response :=
  let self := self.set_json_data data
  self.set_data_transformer (fun data => .ok (jsonText data))

/-- `Response::set_jsonlines_response(data)`. -/
def Response.set_jsonlines_response (self : Response) (data : JsonValue) : Response :=
  let self := self.set_json_data data
  let self := self.set_content_type "application/jsonlines; charset=utf-8"
  self.set_data_transformer (fun data => data.to_jsonlines)

/-- `Response::set_msgpack_response(data)`. -/
def Response.set_msgpack_response (self : Response) (data : JsonValue) : Response :=
  let self := self.set_json_data data
  let self := self.set_content_type "application/msgpack"
  self.set_data_transformer (fun data => data.to_msgpack)

/-- `Response::set_csv_response(data)`. -/
def Response.set_csv_response (self : Response) (data : JsonValue) : Response :=
  let self := self.set_json_data data
  let self := self.set_content_type "text/csv; charset=utf-8"
  self.set_data_transformer (fun data => data.to_csv)

/-- `Response::record_server_timing(name, description, duration)`. -/
def Response.record_server_timing (self : Response) (name : SharedString)
    (description : Option SharedString) (duration : Option Duration) : Response :=
  { self with server_timing := self.server_timing ++ [⟨name, description, duration⟩] }

/-- `Response::insert_header(name, value)`. -/
def Response.insert_header (self : Response) (name : String) (value : String) : Response :=
  { self with headers := self.headers ++ [(name, value)] }

/-- `Response::trace_id()`. -/
def Response.trace_id (self : Response) : Uuid :=
  match self.trace_context with
  | some trace_context => Uuid.from_u128 trace_context.trace_id
  | none => Uuid.nil

/-- `Response::content_type()`, the accessor (named `content_type_value`
because the structure-field projection already carries the source name). -/
def Response.content_type_value (self : Response) : String :=
  match self.content_type with
  | some ct => ct
  | none =>
    if self.is_success then "application/json; charset=utf-8"
    else "application/problem+json; charset=utf-8"

/-- `Response::trace_context()`, the accessor returning the
`(traceparent, tracestate)` pair (named `trace_context_pair` because the
structure-field projection already carries the source name). The randomly
generated `TraceContext::new()` of the absent case is the explicit
`fresh`; the source pushes a `("zino", span id in hex)` vendor entry onto
its state before formatting. -/
def Response.trace_context_pair (self : Response) (fresh : TraceContext) : String × String :=
  match self.trace_context with
  | some trace_context => (trace_context.traceparent, trace_context.tracestate)
  | none =>
    let trace_context :=
      { fresh with trace_state := fresh.trace_state ++ [("zino", hexStr fresh.span_id)] }
    (trace_context.traceparent, trace_context.tracestate)

/-- `Response::server_timing()`, the accessor rendering the header value
(named `server_timing_value` because the structure-field projection
already carries the source name). -/
def Response.server_timing_value (self : Response) : String :=
  serverTimingRender self.server_timing

/-- `Response::response_time()`: the elapsed duration since `start_time`,
with the ambient clock as the explicit `now`. The fire-and-forget metrics
side effects (gauge, counter, histogram) touch process-global state and
are not part of the response state modelled here. -/
def Response.response_time (self : Response) (now : Instant) : Duration :=
  now - self.start_time

/-- The `#[serde]`-visible members of a `Response`, in declaration order,
as `(rendered key, rendered JSON value)` pairs, following the field
attributes of the source: `type_uri` renames to `type`, `status_code` to
`status`, `error_code` to `error`, `json_data` to `data`; optional fields
are skipped when `None`, `request_id` when nil, `json_data` when null;
`start_time`, `data_transformer`, `content_type`, `trace_context`,
`server_timing`, `headers` carry `#[serde(skip)]`. -/
def Response.envelope_entries (self : Response) : List (String × String) :=
  (match self.type_uri with
   | some v => [("type", jsonText (.str v))]
   | none => [])
  ++ (match self.title with
      | some v => [("title", jsonText (.str v))]
      | none => [])
  ++ [("status", toString self.status_code)]
  ++ (match self.error_code with
      | some v => [("error", jsonText (.str v))]
      | none => [])
  ++ (match self.detail with
      | some v => [("detail", jsonText (.str v))]
      | none => [])
  ++ (match self.instance_uri with
      | some v => [("instance", jsonText (.str v))]
      | none => [])
  ++ [("success", cond self.success "true" "false")]
  ++ (match self.message with
      | some v => [("message", jsonText (.str v))]
      | none => [])
  ++ (if Uuid.is_nil self.request_id then []
      else [("request_id", jsonText (.str (uuidToString self.request_id)))])
  ++ (match self.data with
      | some v => [("data", jsonText v)]
      | none => [])
  ++ (if self.json_data.is_null then []
      else [("data", jsonText self.json_data)])

/-- `serde_json::to_writer(&mut bytes, &self)`: the JSON envelope text of
the whole response object. -/
def Response.envelope_json (self : Response) : String :=
  "\x7b"
    ++ String.intercalate "," (self.envelope_entries.map (fun kv => "\"" ++ kv.1 ++ "\":" ++ kv.2))
    ++ "\x7d"

/-- `Response::read_bytes()`. `serde_json::to_value(&self.data)` of an
`Option<Box<RawValue>>` cannot fail and yields `Null` for `None` and the
parsed value for `Some`; the `Vec` capacity hints of the source are
performance-only and do not affect the produced bytes. -/
def Response.read_bytes (self : Response) : Except Error String :=
  match self.data_transformer with
  | some transformer =>
    if !self.json_data.is_null then
      transformer self.json_data
    else
      let data :=
        match self.data with
        | some v => v
        | none => JsonValue.null
      transformer data
  | none =>
    let content_type := self.content_type_value
    if check_json_content_type content_type then
      .ok self.envelope_json
    else
      match self.data with
      | some data =>
        let value := data
        if strStartsWith content_type "text/csv" then value.to_csv
        else if strStartsWith content_type "application/jsonlines" then value.to_jsonlines
        else if strStartsWith content_type "application/msgpack" then value.to_msgpack
        else
          match value with
          | .str s => .ok s
          | v => .ok (jsonText v)
      | none =>
        if !self.json_data.is_null then
          let value := self.json_data
          if strStartsWith content_type "text/csv" then value.to_csv
          else if strStartsWith content_type "application/jsonlines" then value.to_jsonlines
          else if strStartsWith content_type "application/msgpack" then value.to_msgpack
          else
            match value with
            | .str s => .ok s
            | v => .ok (jsonText v)
        else .ok ""

/-- `Response::finalize()`: consumes the response and yields its header
list. The ambient clock of `response_time()` is the explicit `now` and the
fresh trace context possibly synthesized by `trace_context()` is the
explicit `fresh`. -/
def Response.finalize (self : Response) (fresh : TraceContext) (now : Instant) :
    List (String × String) :=
  let request_id := self.request_id
  let self :=
    if !request_id.is_nil then self.insert_header "x-request-id" (uuidToString request_id)
    else self
  let pair := self.trace_context_pair fresh
  let self := self.insert_header "traceparent" pair.1
  let self := self.insert_header "tracestate" pair.2
  let duration := self.response_time now
  let self := self.record_server_timing "total" none (some duration)
  let self := self.insert_header "server-timing" self.server_timing_value
  self.headers

/-- `impl From<Validation> for Response<S>`; `Instant::now()` of the inner
`Response::new` is the explicit `now`. -/
def Response.from_validation (validation : Validation) (now : Instant) : Response :=
  if validation.is_success then
    Response.new ResponseCode.OK now
  else
    (Response.new ResponseCode.BAD_REQUEST now).set_validation_data validation

/-! Properties. -/

/-- The message/detail discipline: the slot selected by `success` holds
exactly `text` and the other slot is empty. -/
def slotSelected (r : Response) (text : Option SharedString) : Prop :=
  if r.success then r.message = text ∧ r.detail = none
  else r.detail = text ∧ r.message = none

/-- C1, counterexample: for a successful status code whose `message()` is
`None` (the capability's `message` is optional), `new` leaves *both*
`message` and `detail` empty, so "success implies `message` is set" and
"exactly one of the two is populated" both fail. -/
theorem message_detail_exactly_one_fails :
    (Response.new ⟨true, 200, none, none, none, none⟩ 0).success = true
      ∧ (Response.new ⟨true, 200, none, none, none, none⟩ 0).message = none
      ∧ (Response.new ⟨true, 200, none, none, none, none⟩ 0).detail = none :=
  ⟨rfl, rfl, rfl⟩

/-- C1 (amended): after `new`/`with_context`/`set_code`, the slot selected
by `success` holds the code's (possibly absent) message and the other slot
is empty — so at most one of `message`/`detail` is ever populated, and
which one is selected by `success`; `set_message` and `set_error_message`
always populate the selected slot, so after them exactly one is
populated. -/
theorem message_detail_exclusivity :
    (∀ (code : ResponseCode) (now : Instant),
        slotSelected (Response.new code now) code.message)
      ∧ (∀ (code : ResponseCode) (ctx : RequestContext),
          slotSelected (Response.with_context code ctx) code.message)
      ∧ (∀ (r : Response) (code : ResponseCode),
          slotSelected (r.set_code code) code.message)
      ∧ (∀ (r : Response) (m : SharedString),
          slotSelected (r.set_message m) (some m))
      ∧ (∀ (r : Response) (e : Error),
          slotSelected (r.set_error_message e) (some e)) := by
  refine ⟨fun code now => ?_, fun code ctx => ?_, fun r code => ?_,
    fun r m => ?_, fun r e => ?_⟩
  · cases h : code.is_success <;>
      simp [Response.new, slotSelected, h]
  · cases h : code.is_success <;>
      simp [Response.with_context, slotSelected, h]
  · cases h : code.is_success <;>
      simp [Response.set_code, slotSelected, h]
  · cases h : r.success <;>
      simp [Response.set_message, Response.is_success, slotSelected, h]
  · cases h : r.success <;>
      simp [Response.set_error_message, Response.is_success, slotSelected, h]

/-- The payload discipline: `data` and `json_data` are never both
populated. -/
def payload_exclusive (r : Response) : Prop :=
  r.data = none ∨ r.json_data = JsonValue.null

/-- C2: `data` and `json_data` are never both non-empty: `new` starts with
both empty, a successful `set_data`/`set_validation_data` clears
`json_data`, `set_json_data` clears `data`, a failing `set_data` touches
neither slot, and every `set_*_response` helper clears `data`. -/
theorem payload_exclusivity :
    (∀ (code : ResponseCode) (now : Instant),
        payload_exclusive (Response.new code now))
      ∧ (∀ (r : Response) (serialized : Except Error JsonValue),
          payload_exclusive r → payload_exclusive (r.set_data serialized))
      ∧ (∀ (r : Response) (d : JsonValue), payload_exclusive (r.set_json_data d))
      ∧ (∀ (r : Response) (v : Validation),
          payload_exclusive (r.set_validation_data v))
      ∧ (∀ (r : Response) (d : JsonValue), payload_exclusive (r.set_form_response d))
      ∧ (∀ (r : Response) (d : JsonValue), payload_exclusive (r.set_json_response d))
      ∧ (∀ (r : Response) (d : JsonValue),
          payload_exclusive (r.set_jsonlines_response d))
      ∧ (∀ (r : Response) (d : JsonValue),
          payload_exclusive (r.set_msgpack_response d))
      ∧ (∀ (r : Response) (d : JsonValue), payload_exclusive (r.set_csv_response d)) := by
  refine ⟨fun code now => ?_, fun r s hr => ?_, fun r d => ?_, fun r v => ?_,
    fun r d => ?_, fun r d => ?_, fun r d => ?_, fun r d => ?_, fun r d => ?_⟩
  · cases h : code.is_success <;> simp [Response.new, payload_exclusive, h]
  · cases s with
    | ok raw => simp [Response.set_data, payload_exclusive]
    | error err =>
      cases h : r.success <;>
        simpa [Response.set_data, Response.set_error_message, Response.is_success,
          payload_exclusive, h] using hr
  · simp [Response.set_json_data, payload_exclusive]
  · simp [Response.set_validation_data, to_raw_value_map, payload_exclusive]
  · simp [Response.set_form_response, Response.set_content_type,
      Response.set_data_transformer, payload_exclusive]
  · simp [Response.set_json_response, Response.set_json_data,
      Response.set_data_transformer, payload_exclusive]
  · simp [Response.set_jsonlines_response, Response.set_json_data,
      Response.set_content_type, Response.set_data_transformer, payload_exclusive]
  · simp [Response.set_msgpack_response, Response.set_json_data,
      Response.set_content_type, Response.set_data_transformer, payload_exclusive]
  · simp [Response.set_csv_response, Response.set_json_data,
      Response.set_content_type, Response.set_data_transformer, payload_exclusive]

/-- C2, witness: the exclusivity is preserved through a failing `set_data`
on a freshly constructed response. -/
theorem payload_exclusivity_witness :
    payload_exclusive ((Response.new ResponseCode.OK 0).set_data (.error "boom")) :=
  payload_exclusivity.2.1 (Response.new ResponseCode.OK 0) (.error "boom") (Or.inl rfl)

/-- C3, counterexample: a payload-free, transformer-free response whose
content type is the *default* (a JSON media type) does not yield an empty
buffer — `read_bytes` serializes the whole response envelope instead. -/
theorem empty_body_regardless_of_content_type_fails :
    (Response.new ResponseCode.OK 0).data = none
      ∧ (Response.new ResponseCode.OK 0).json_data = JsonValue.null
      ∧ (Response.new ResponseCode.OK 0).data_transformer = none
      ∧ (Response.new ResponseCode.OK 0).read_bytes
          = Except.ok "\x7b\"status\":200,\"success\":true,\"message\":\"OK\"\x7d"
      ∧ "\x7b\"status\":200,\"success\":true,\"message\":\"OK\"\x7d" ≠ "" := by
  refine ⟨rfl, rfl, rfl, rfl, ?_⟩
  decide

/-- C3 (amended): if `data` is absent, `json_data` is null, no
`data_transformer` is installed, *and the effective content type is not a
JSON media type*, then `read_bytes()` returns an empty byte buffer (with a
JSON media type it returns the serialized response envelope instead). -/
theorem empty_body_when_not_json (r : Response)
    (hdata : r.data = none) (hjson : r.json_data = JsonValue.null)
    (htrans : r.data_transformer = none)
    (hct : check_json_content_type r.content_type_value = false) :
    r.read_bytes = .ok "" := by
  simp [Response.read_bytes, htrans, hct, hdata, hjson, JsonValue.is_null]

/-- C3, witness: a fresh response with an explicit `text/plain` content
type reads back as the empty buffer. -/
theorem empty_body_when_not_json_witness :
    ((Response.new ResponseCode.OK 0).set_content_type "text/plain").read_bytes
      = .ok "" :=
  empty_body_when_not_json ((Response.new ResponseCode.OK 0).set_content_type "text/plain")
    rfl rfl rfl (by decide)

/-- C4: a failing serialization inside `set_data` is not propagated: the
error text lands in the slot selected by the *current* `success` flag, and
`status_code` and `success` keep their previous values; in particular
after `new(INTERNAL_SERVER_ERROR)` a failing `set_data` leaves `detail`
equal to the error text, `success` false and `status_code` 500. -/
theorem set_data_failure_self_heals :
    (∀ (r : Response) (err : Error),
        (r.set_data (.error err)).status_code = r.status_code
          ∧ (r.set_data (.error err)).success = r.success
          ∧ (r.success = true →
              (r.set_data (.error err)).message = some err
                ∧ (r.set_data (.error err)).detail = none)
          ∧ (r.success = false →
              (r.set_data (.error err)).detail = some err
                ∧ (r.set_data (.error err)).message = none))
      ∧ (∀ (err : Error) (now : Instant),
          ((Response.new ResponseCode.INTERNAL_SERVER_ERROR now).set_data
              (.error err)).detail = some err
            ∧ ((Response.new ResponseCode.INTERNAL_SERVER_ERROR now).set_data
                (.error err)).success = false
            ∧ ((Response.new ResponseCode.INTERNAL_SERVER_ERROR now).set_data
                (.error err)).status_code = 500) := by
  constructor
  · intro r err
    cases h : r.success <;>
      simp [Response.set_data, Response.set_error_message, Response.is_success, h]
  · intro err now
    simp [Response.new, Response.set_data, Response.set_error_message,
      Response.is_success, ResponseCode.INTERNAL_SERVER_ERROR]

/-- C4, witness: the general frame part applied to a concrete failing
response. -/
theorem set_data_failure_self_heals_witness :
    ((Response.new ResponseCode.INTERNAL_SERVER_ERROR 0).set_data
        (.error "boom")).detail = some "boom"
      ∧ ((Response.new ResponseCode.INTERNAL_SERVER_ERROR 0).set_data
          (.error "boom")).message = none :=
  (set_data_failure_self_heals.1 (Response.new ResponseCode.INTERNAL_SERVER_ERROR 0)
    "boom").2.2.2 rfl

/-- C5: whenever a `data_transformer` is installed, `read_bytes()` is
exactly the transformer's output — applied to `json_data` when non-null
and otherwise to the JSON value `data` deserializes to (`Null` when `data`
is absent) — so its error propagates and no other encoding path runs. -/
theorem transformer_path (r : Response) (f : JsonValue → Except Error String)
    (h : r.data_transformer = some f) :
    r.read_bytes
      = f (if r.json_data.is_null then r.data.getD JsonValue.null else r.json_data) := by
  cases hj : r.json_data.is_null <;>
    cases hd : r.data <;>
      simp [Response.read_bytes, h, hj, hd, Option.getD]

/-- C5, witness: a concrete installed transformer (the JSON text encoder)
is what `read_bytes` returns, here applied to the null payload. -/
theorem transformer_path_witness :
    ((Response.new ResponseCode.OK 0).set_data_transformer
        (fun v => .ok (jsonText v))).read_bytes = .ok "null" := by
  have h := transformer_path
    ((Response.new ResponseCode.OK 0).set_data_transformer (fun v => .ok (jsonText v)))
    (fun v => .ok (jsonText v)) rfl
  simpa using h

/-- C6: `finalize` yields the response's headers with `x-request-id`
appended only when the request id is non-nil, then `traceparent` and
`tracestate` always, then `server-timing`, whose rendered value carries a
`total` entry with the (non-negative) `response_time()` duration. -/
theorem finalize_header_order (r : Response) (fresh : TraceContext) (now : Instant) :
    r.finalize fresh now
      = r.headers
          ++ (if r.request_id.is_nil then []
              else [("x-request-id", uuidToString r.request_id)])
          ++ [("traceparent", (r.trace_context_pair fresh).1),
              ("tracestate", (r.trace_context_pair fresh).2),
              ("server-timing",
                serverTimingRender
                  (r.server_timing ++ [⟨"total", none, some (r.response_time now)⟩]))]
        ∧ TimingMetric.render ⟨"total", none, some (r.response_time now)⟩
            = "total" ++ ";dur=" ++ toString (r.response_time now)
        ∧ 0 ≤ r.response_time now := by
  refine ⟨?_, ?_, Nat.zero_le _⟩
  · cases h : r.request_id.is_nil <;>
      simp [Response.finalize, Response.insert_header, Response.record_server_timing,
        Response.server_timing_value, Response.trace_context_pair,
        Response.response_time, h]
  · simp [TimingMetric.render, ← String.append_assoc]

/-- C7: converting a failed validation yields a 400 response whose `data`
payload is exactly the validation's field-error mapping. -/
theorem validation_failure_response (validation : Validation) (now : Instant)
    (h : validation.is_success = false) :
    (Response.from_validation validation now).status_code = 400
      ∧ (Response.from_validation validation now).data
          = some (JsonValue.obj validation.into_map) := by
  simp [Response.from_validation, h, Response.set_validation_data, to_raw_value_map,
    Response.new, ResponseCode.BAD_REQUEST]

/-- C7, witness: a concrete one-field validation failure. -/
theorem validation_failure_response_witness :
    (Response.from_validation ⟨[("name", JsonValue.str "required")]⟩ 0).status_code = 400
      ∧ (Response.from_validation ⟨[("name", JsonValue.str "required")]⟩ 0).data
          = some (JsonValue.obj [("name", JsonValue.str "required")]) :=
  validation_failure_response ⟨[("name", JsonValue.str "required")]⟩ 0 rfl

/-- C8: `set_code` re-derives exactly the status-derived fields
(`type_uri`, `title`, `status_code`, `error_code`, `success`, `message`,
`detail`) and leaves every other field unchanged. -/
theorem set_code_frame (r : Response) (code : ResponseCode) :
    (r.set_code code).type_uri = code.type_uri
      ∧ (r.set_code code).title = code.title
      ∧ (r.set_code code).status_code = code.status_code
      ∧ (r.set_code code).error_code = code.error_code
      ∧ (r.set_code code).success = code.is_success
      ∧ (r.set_code code).message = (if code.is_success then code.message else none)
      ∧ (r.set_code code).detail = (if code.is_success then none else code.message)
      ∧ (r.set_code code).data = r.data
      ∧ (r.set_code code).json_data = r.json_data
      ∧ (r.set_code code).data_transformer = r.data_transformer
      ∧ (r.set_code code).content_type = r.content_type
      ∧ (r.set_code code).headers = r.headers
      ∧ (r.set_code code).trace_context = r.trace_context
      ∧ (r.set_code code).server_timing = r.server_timing
      ∧ (r.set_code code).request_id = r.request_id
      ∧ (r.set_code code).instance_uri = r.instance_uri
      ∧ (r.set_code code).start_time = r.start_time := by
  cases h : code.is_success <;> simp [Response.set_code, h]

/-- C9: `content_type()` is pure (repeated calls agree by construction)
and returns the explicit override when set, else the success-dependent
default. -/
theorem content_type_accessor (r : Response) :
    r.content_type_value = r.content_type_value
      ∧ (∀ ct : SharedString, r.content_type = some ct → r.content_type_value = ct)
      ∧ (r.content_type = none →
          r.content_type_value
            = if r.success then "application/json; charset=utf-8"
              else "application/problem+json; charset=utf-8") := by
  refine ⟨rfl, fun ct h => ?_, fun h => ?_⟩
  · simp [Response.content_type_value, h]
  · cases hs : r.success <;>
      simp [Response.content_type_value, Response.is_success, h, hs]

/-- C9, witness: the default content type of a fresh successful response. -/
theorem content_type_accessor_witness :
    (Response.new ResponseCode.OK 0).content_type_value
      = "application/json; charset=utf-8" := by
  have h := (content_type_accessor (Response.new ResponseCode.OK 0)).2.2 rfl
  simpa using h

/-- C10: `trace_id()` is the nil UUID whenever no trace context is
attached — in particular directly after `new` — and is the attached trace
context's 128-bit trace id as a UUID otherwise. -/
theorem trace_id_of_context :
    (∀ (code : ResponseCode) (now : Instant),
        (Response.new code now).trace_context = none
          ∧ (Response.new code now).trace_id = Uuid.nil)
      ∧ (∀ r : Response, r.trace_context = none → r.trace_id = Uuid.nil)
      ∧ (∀ (r : Response) (tc : TraceContext), r.trace_context = some tc →
          r.trace_id = Uuid.from_u128 tc.trace_id) := by
  refine ⟨fun code now => ⟨?_, ?_⟩, fun r h => ?_, fun r tc h => ?_⟩
  · cases h : code.is_success <;> simp [Response.new, h]
  · cases h : code.is_success <;> simp [Response.new, Response.trace_id, h]
  · simp [Response.trace_id, h]
  · simp [Response.trace_id, h]

/-- C10, witness: nil for a context-free response, the context's trace id
for a response built with a request context. -/
theorem trace_id_of_context_witness :
    (Response.new ResponseCode.OK 0).trace_id = Uuid.nil
      ∧ (Response.with_context ResponseCode.OK ⟨"/item", 0, 1, ⟨5, 6, none, 1, []⟩⟩).trace_id
          = Uuid.from_u128 5 :=
  ⟨trace_id_of_context.2.1 (Response.new ResponseCode.OK 0) rfl,
    trace_id_of_context.2.2
      (Response.with_context ResponseCode.OK ⟨"/item", 0, 1, ⟨5, 6, none, 1, []⟩⟩)
      ⟨5, 6, none, 1, []⟩ rfl⟩

end Zino
